import Mathlib

/-!
# SSVI field-inspection backend — verification development

Shallow embedding of the API section of `src/server.ts` (the
`recentSubmissions` deduplication map, the `POST /api/upload-inspection`
handler and the `GET /api/dashboard-stats` handler, lines ~404-597) and of
the `SelectionPage` distance-resolution logic of `src/unnamed/part_000`
(`calculateDistance`, the distance-sorted catalog, the "detected" nearest
station and the "nearby" subset, lines ~114-162).

External services (Google Drive, Google Sheets, PostgreSQL) are modelled as
oracles: each outbound call's outcome is an input of the embedded handler,
and the handler records which side effects it attempted.
-/

/-- One uploaded file of a multipart request (`req.files` entry). -/
structure UploadedFile where
  originalname : String
  mimetype : String
  deriving DecidableEq, Repr

/-- The fields of the upload-inspection request body read by the handler
(`employeeId, substationName, lat, lng, timestamp` plus `req.files`).
`dateStr` stands for the th-TH formatted `DDMMYY` string the handler derives
from `timestamp`; its formatting is locale logic outside the claims. -/
structure UploadRequest where
  employeeId : String
  substationName : String
  lat : String
  lng : String
  dateStr : String
  photos : List UploadedFile
  deriving DecidableEq, Repr

/-- The `recentSubmissions : Map<string, number>` dedupe map, as an
association list from submission key to last-accepted epoch milliseconds. -/
abbrev DedupeMap := List (String × Int)

/-- Model of `Map.get` / `Map.has` (returns `none` when the key is absent). -/
def mapGet (m : DedupeMap) (k : String) : Option Int :=
  match m with
  | [] => none
  | (k', v) :: rest => if k' = k then some v else mapGet rest k

/-- Model of `Map.set`: replace the existing entry for the key, or add one. -/
def mapSet (m : DedupeMap) (k : String) (v : Int) : DedupeMap :=
  match m with
  | [] => [(k, v)]
  | (k', v') :: rest => if k' = k then (k, v) :: rest else (k', v') :: mapSet rest k v

/-- The submission key `${employeeId}-${substationName}`. -/
def submissionKey (req : UploadRequest) : String :=
  req.employeeId ++ "-" ++ req.substationName

/-- The deduplication gate of the handler (spec §4.2 `shouldAccept`):
accept unless an entry exists with `now - lastTime < 10000`. -/
def dedupePasses (m : DedupeMap) (key : String) (now : Int) : Bool :=
  match mapGet m key with
  | some lastTime => !decide (now - lastTime < 10000)
  | none => true

/-- A SQL `TIMESTAMP` value, with the fields `EXTRACT` can project. -/
structure SqlTimestamp where
  year : Nat
  month : Nat
  day : Nat
  hour : Nat
  minute : Nat
  second : Nat
  deriving DecidableEq, Repr

/-- Chronological (lexicographic by year, month, day, time) order on
`SqlTimestamp`, the order `ORDER BY timestamp` uses. -/
def SqlTimestamp.le (a b : SqlTimestamp) : Bool :=
  Nat.blt a.year b.year || (a.year == b.year &&
    (Nat.blt a.month b.month || (a.month == b.month &&
      (Nat.blt a.day b.day || (a.day == b.day &&
        (Nat.blt a.hour b.hour || (a.hour == b.hour &&
          (Nat.blt a.minute b.minute || (a.minute == b.minute &&
            Nat.ble a.second b.second)))))))))

/-- One row of the `inspection_logs` table (schema from `initDb`). -/
structure InspectionLogRow where
  id : Nat
  employee_id : String
  substation_name : String
  timestamp : SqlTimestamp
  gps_lat : Rat
  gps_lng : Rat
  folder_id : String
  status : String
  deriving DecidableEq, Repr

/-- A JSON value as used in the handlers' `res.json(...)` bodies. -/
inductive JVal where
  | jbool : Bool → JVal
  | jstr : String → JVal
  | jnum : Nat → JVal
  | jrows : List InspectionLogRow → JVal
  deriving DecidableEq, Repr

/-- A JSON response body: ordered key/value pairs, as in `res.json({...})`. -/
abbrev JBody := List (String × JVal)

/-- Oracle for all external calls of one upload-inspection request:
the outcome of each Google Drive `files.list` / `files.create` call, of the
per-file uploads, and of the database insert and Sheets append, plus which
lazily-initialized clients are configured. -/
structure DriveEnv where
  /-- Whether `getDriveService()` returns non-null. -/
  driveConfigured : Bool
  /-- Result of `files.list` for the main substation folder: `none` when no match. -/
  listMainFolder : Except String (Option String)
  /-- Result of `files.create` for the main substation folder: the new folder id. -/
  createMainFolder : Except String String
  /-- Result of `files.list` for the daily folder. -/
  listDailyFolder : Except String (Option String)
  /-- Result of `files.create` for the daily folder. -/
  createDailyFolder : Except String String
  /-- Upload outcome of `files.create` for the i-th photo. -/
  uploadFile : Nat → Except String Unit
  /-- Whether `getDbClient()` returns non-null. -/
  dbConfigured : Bool
  /-- Outcome of the `INSERT INTO inspection_logs ...` query. -/
  dbInsert : Except String Unit
  /-- Whether `getSheetsService()` returns non-null (the sheet id always has a
  literal fallback, so it is never empty). -/
  sheetsConfigured : Bool
  /-- Outcome of `spreadsheets.values.append`. -/
  sheetAppend : Except String Unit

/-- The find-or-create pattern used for both folder levels: query by exact
name and parent (trashed excluded); reuse the id when found, else create. -/
def findOrCreateFolder (listRes : Except String (Option String))
    (createRes : Except String String) : Except String String :=
  match listRes with
  | .error e => .error e
  | .ok (some fid) => .ok fid
  | .ok none => createRes

/-- The per-file upload loop (`for (const file of files) { await ... }`);
returns how many uploads were attempted and the first failure, if any.
Files uploaded before a failing file remain uploaded. -/
def uploadAll (env : DriveEnv) : Nat → List UploadedFile → Nat × Except String Unit
  | _, [] => (0, .ok ())
  | i, _f :: fs =>
    match env.uploadFile i with
    | .error e => (1, .error e)
    | .ok _ =>
      let (n, r) := uploadAll env (i + 1) fs
      (n + 1, r)

/-- The storage phase of the handler: resolve the main substation folder,
then the daily folder inside it, then upload every photo into the daily
folder. Returns the number of attempted uploads and either the daily folder
id or the first error. -/
def runStorage (req : UploadRequest) (env : DriveEnv) : Nat × Except String String :=
  match findOrCreateFolder env.listMainFolder env.createMainFolder with
  | .error e => (0, .error e)
  | .ok _mainId =>
    match findOrCreateFolder env.listDailyFolder env.createDailyFolder with
    | .error e => (0, .error e)
    | .ok dailyId =>
      match uploadAll env 0 req.photos with
      | (n, .error e) => (n, .error e)
      | (n, .ok _) => (n, .ok dailyId)

/-- Evaluates to `true` exactly when the storage phase (folder resolution or a file
upload) of the request would fail. -/
def storageFailed (req : UploadRequest) (env : DriveEnv) : Bool :=
  match (runStorage req env).2 with
  | .ok _ => false
  | .error _ => true

/-- Observable outcome of one `POST /api/upload-inspection` request:
HTTP status, JSON body, the dedupe map afterwards, and which external
writes were attempted. -/
structure HandlerResult where
  status : Nat
  body : JBody
  recentSubmissions : DedupeMap
  uploadsAttempted : Nat
  dbInsertAttempted : Bool
  sheetAppendAttempted : Bool
  deriving Repr

/-- The `POST /api/upload-inspection` handler (`src/server.ts` lines
406-561): dedupe gate (answering duplicates with synthetic success and
recording `now` otherwise, before anything else), the Drive-configured
check, the storage phase (fatal on failure: HTTP 500 `{error}`), then the
best-effort database insert and Sheets append whose failures are caught and
logged, and finally `{success:true, folderId}`. -/
def uploadInspection (recent : DedupeMap) (now : Int) (req : UploadRequest)
    (env : DriveEnv) : HandlerResult :=
  let key := submissionKey req
  if !dedupePasses recent key now then
    { status := 200
      body := [("success", .jbool true), ("message", .jstr "Duplicate request ignored")]
      recentSubmissions := recent
      uploadsAttempted := 0
      dbInsertAttempted := false
      sheetAppendAttempted := false }
  else
    let recent' := mapSet recent key now
    if !env.driveConfigured then
      { status := 500
        body := [("error", .jstr "Google Drive service not configured")]
        recentSubmissions := recent'
        uploadsAttempted := 0
        dbInsertAttempted := false
        sheetAppendAttempted := false }
    else
      match runStorage req env with
      | (n, .error e) =>
        { status := 500
          body := [("error", .jstr e)]
          recentSubmissions := recent'
          uploadsAttempted := n
          dbInsertAttempted := false
          sheetAppendAttempted := false }
      | (n, .ok dailyId) =>
        { status := 200
          body := [("success", .jbool true), ("folderId", .jstr dailyId)]
          recentSubmissions := recent'
          uploadsAttempted := n
          dbInsertAttempted := env.dbConfigured
          sheetAppendAttempted := env.sheetsConfigured }

/-- The filter `WHERE EXTRACT(MONTH FROM timestamp) = $1 AND EXTRACT(YEAR FROM timestamp) = $2`. -/
def matchesFilter (m y : Nat) (r : InspectionLogRow) : Bool :=
  r.timestamp.month == m && r.timestamp.year == y

/-- The rows the two dashboard queries range over: filtered by month and
year only when both query parameters are present (`if (month && year)`). -/
def filteredLogs (table : List InspectionLogRow) :
    Option Nat → Option Nat → List InspectionLogRow
  | some m, some y => table.filter (matchesFilter m y)
  | _, _ => table

/-- The `ORDER BY timestamp DESC` comparison. -/
def descByTimestamp (a b : InspectionLogRow) : Bool :=
  SqlTimestamp.le b.timestamp a.timestamp

/-- The query `SELECT * ... ORDER BY timestamp DESC LIMIT 100`. -/
def recentRows (table : List InspectionLogRow) (m y : Option Nat) :
    List InspectionLogRow :=
  ((filteredLogs table m y).mergeSort descByTimestamp).take 100

/-- The count query `SELECT COUNT(DISTINCT substation_name) ...` on the same window. -/
def distinctSubstationCount (table : List InspectionLogRow) (m y : Option Nat) : Nat :=
  ((filteredLogs table m y).map (·.substation_name)).dedup.length

/-- The `GET /api/dashboard-stats` handler (`src/server.ts` lines 564-597)
over an in-memory model of the `inspection_logs` table: when no database
client is configured it answers `{total:0, recent:[]}`; when the queries
throw it answers HTTP 500; otherwise `{total, recent}` from the two
queries. Returns (status, body). -/
def dashboardStats (dbConfigured : Bool) (queryFails : Bool)
    (table : List InspectionLogRow) (month year : Option Nat) : Nat × JBody :=
  if !dbConfigured then
    (200, [("total", .jnum 0), ("recent", .jrows [])])
  else if queryFails then
    (500, [("error", .jstr "Failed to fetch stats")])
  else
    (200, [("total", .jnum (distinctSubstationCount table month year)),
           ("recent", .jrows (recentRows table month year))])

/-! ## Distance resolver (`src/unnamed/part_000`, `SelectionPage`) -/

/-- Model of `Math.atan2 y x`, the angle of the point `(x, y)`, as the complex
argument of `x + y i`. -/
noncomputable def atan2 (y x : Real) : Real := Complex.arg ⟨x, y⟩

/-- Model of `calculateDistance(lat1, lon1, lat2, lon2)`: the haversine great-circle
distance in km with Earth radius `R = 6371`
(`src/unnamed/part_000` lines 120-130). -/
noncomputable def calculateDistance (lat1 lon1 lat2 lon2 : Real) : Real :=
  let R : Real := 6371
  let dLat := (lat2 - lat1) * Real.pi / 180
  let dLon := (lon2 - lon1) * Real.pi / 180
  let a :=
    Real.sin (dLat / 2) * Real.sin (dLat / 2) +
      Real.cos (lat1 * Real.pi / 180) * Real.cos (lat2 * Real.pi / 180) *
        Real.sin (dLon / 2) * Real.sin (dLon / 2)
  let c := 2 * atan2 (Real.sqrt a) (Real.sqrt (1 - a))
  R * c

/-- One catalog entry: identifier, display name, latitude, longitude. -/
structure Substation where
  id : String
  name : String
  lat : Real
  lng : Real

/-- A catalog entry together with its computed distance
(`{ ...sub, distance: km }`). In the geolocation-success path every entry
carries a defined distance. -/
structure RankedSubstation where
  sub : Substation
  distance : Real

/-- Model of `SUBSTATIONS.map(sub => ({ ...sub, distance: calculateDistance(...) }))`,
generically in the catalog. -/
noncomputable def withDistanceOf (cat : List Substation) (latitude longitude : Real) :
    List RankedSubstation :=
  cat.map fun sub => ⟨sub, calculateDistance latitude longitude sub.lat sub.lng⟩

/-- Model of `[...withDistance].sort((a, b) => (a.distance || 0) - (b.distance || 0))`:
stable sort ascending by computed distance (all distances are defined here,
so the `|| 0` defaulting is the identity). -/
noncomputable def sortedSubstationsOf (cat : List Substation) (latitude longitude : Real) :
    List RankedSubstation :=
  (withDistanceOf cat latitude longitude).mergeSort fun a b => decide (a.distance ≤ b.distance)

/-- Model of `if (sorted[0].distance && sorted[0].distance <= 2) setNearestSub(sorted[0])`:
the "detected" nearest station. JavaScript truthiness makes the first
conjunct fail when the distance is exactly `0`, hence the `≠ 0` test. -/
noncomputable def nearestSubOf (cat : List Substation) (latitude longitude : Real) :
    Option RankedSubstation :=
  match sortedSubstationsOf cat latitude longitude with
  | [] => none
  | s0 :: _ => if s0.distance ≠ 0 ∧ s0.distance ≤ 2 then some s0 else none

/-- Model of `sortedSubstations.filter(sub => sub.distance !== undefined && sub.distance <= 10)`. -/
noncomputable def nearbySubstationsOf (cat : List Substation) (latitude longitude : Real) :
    List RankedSubstation :=
  (sortedSubstationsOf cat latitude longitude).filter fun s => decide (s.distance ≤ 10)

/-- Model of `nearbySubstations.length > 0 ? nearbySubstations : sortedSubstations.slice(0, 3)`. -/
noncomputable def displayNearbyOf (cat : List Substation) (latitude longitude : Real) :
    List RankedSubstation :=
  if (nearbySubstationsOf cat latitude longitude).length > 0 then
    nearbySubstationsOf cat latitude longitude
  else (sortedSubstationsOf cat latitude longitude).take 3

/-- Catalog entry `{ id: "sam-chuk", name: "สามชุก", lat: 14.755, lng: 100.095 }`. -/
noncomputable def subSamChuk : Substation := ⟨"sam-chuk", "สามชุก", 14.755, 100.095⟩

/-- Catalog entry `{ id: "si-prachan", name: "ศรีประจันต์", lat: 14.625, lng: 100.142 }`. -/
noncomputable def subSiPrachan : Substation := ⟨"si-prachan", "ศรีประจันต์", 14.625, 100.142⟩

/-- Catalog entry `{ id: "dan-chang", name: "ด่านช้าง", lat: 14.838, lng: 99.695 }`. -/
noncomputable def subDanChang : Substation := ⟨"dan-chang", "ด่านช้าง", 14.838, 99.695⟩

/-- Catalog entry `{ id: "doem-bang", name: "เดิมบางนางบวช", lat: 14.855, lng: 100.045 }`. -/
noncomputable def subDoemBang : Substation := ⟨"doem-bang", "เดิมบางนางบวช", 14.855, 100.045⟩

/-- Catalog entry `{ id: "suphan-buri-1", name: "สุพรรณบุรี 1", lat: 14.475, lng: 100.122 }`. -/
noncomputable def subSuphanBuri1 : Substation := ⟨"suphan-buri-1", "สุพรรณบุรี 1", 14.475, 100.122⟩

/-- Catalog entry `{ id: "suphan-buri-2", name: "สุพรรณบุรี 2", lat: 14.455, lng: 100.105 }`. -/
noncomputable def subSuphanBuri2 : Substation := ⟨"suphan-buri-2", "สุพรรณบุรี 2", 14.455, 100.105⟩

/-- The static substation catalog `SUBSTATIONS` exported by the `./constants`
module that `SelectionPage` imports: six fixed entries, immutable at
runtime. -/
noncomputable def SUBSTATIONS : List Substation :=
  [subSamChuk, subSiPrachan, subDanChang, subDoemBang, subSuphanBuri1, subSuphanBuri2]

/-! ## Concrete fixtures -/

/-- A representative upload request with one photo. -/
def reqW : UploadRequest :=
  { employeeId := "123456", substationName := "สามชุก", lat := "14.7568",
    lng := "100.0931", dateStr := "250269",
    photos := [⟨"building_1_0900_250269.jpg", "image/jpeg"⟩] }

/-- An environment where every external call succeeds. -/
def okEnv (mainId dailyId : String) : DriveEnv :=
  { driveConfigured := true
    listMainFolder := .ok (some mainId)
    createMainFolder := .ok mainId
    listDailyFolder := .ok (some dailyId)
    createDailyFolder := .ok dailyId
    uploadFile := fun _ => .ok ()
    dbConfigured := true
    dbInsert := .ok ()
    sheetsConfigured := true
    sheetAppend := .ok () }

/-- An environment where every file upload fails. -/
def failUploadEnv : DriveEnv :=
  { okEnv "main-id" "daily-id" with uploadFile := fun _ => .error "upload failed" }

/-- An environment where storage succeeds but both best-effort sinks
(relational insert, spreadsheet append) fail. -/
def sinkFailEnv : DriveEnv :=
  { okEnv "main-id" "daily-id" with
    dbInsert := .error "db down", sheetAppend := .error "sheets down" }

/-- A February 2026 log row. -/
def rowFeb1 : InspectionLogRow :=
  ⟨1, "123456", "สามชุก", ⟨2026, 2, 25, 9, 0, 0⟩, 14.7568, 100.0931, "fold1", "completed"⟩

/-- A second February 2026 log row for the same substation. -/
def rowFeb2 : InspectionLogRow :=
  ⟨2, "654321", "สามชุก", ⟨2026, 2, 26, 10, 0, 0⟩, 14.7568, 100.0931, "fold2", "completed"⟩

/-- A two-row `inspection_logs` table. -/
def tblFeb : List InspectionLogRow := [rowFeb1, rowFeb2]

/-! ## Helper lemmas -/

theorem mapGet_mapSet_self (m : DedupeMap) (k : String) (v : Int) :
    mapGet (mapSet m k v) k = some v := by
  induction m with
  | nil => simp [mapSet, mapGet]
  | cons hd tl ih =>
    obtain ⟨k', v'⟩ := hd
    by_cases h : k' = k <;> simp [mapSet, mapGet, h, ih]

theorem uploadAll_okEnv (mainId dailyId : String) (fs : List UploadedFile) :
    ∀ i : Nat, uploadAll (okEnv mainId dailyId) i fs = (fs.length, .ok ()) := by
  induction fs with
  | nil => intro i; rfl
  | cons f fs ih =>
    intro i
    have hup : (okEnv mainId dailyId).uploadFile i = .ok () := rfl
    simp [uploadAll, hup, ih]

theorem runStorage_okEnv (mainId dailyId : String) (req : UploadRequest) :
    runStorage req (okEnv mainId dailyId) = (req.photos.length, .ok dailyId) := by
  have h1 : (okEnv mainId dailyId).listMainFolder = .ok (some mainId) := rfl
  have h2 : (okEnv mainId dailyId).listDailyFolder = .ok (some dailyId) := rfl
  simp [runStorage, findOrCreateFolder, h1, h2, uploadAll_okEnv]

/-- Duplicate branch of the handler. -/
theorem uploadInspection_dup (m : DedupeMap) (now : Int) (req : UploadRequest)
    (env : DriveEnv) (hdup : dedupePasses m (submissionKey req) now = false) :
    uploadInspection m now req env =
      { status := 200
        body := [("success", .jbool true), ("message", .jstr "Duplicate request ignored")]
        recentSubmissions := m
        uploadsAttempted := 0
        dbInsertAttempted := false
        sheetAppendAttempted := false } := by
  simp [uploadInspection, hdup]

/-- Accepted submission, storage phase succeeds. -/
theorem uploadInspection_ok (m : DedupeMap) (now : Int) (req : UploadRequest)
    (env : DriveEnv) (hacc : dedupePasses m (submissionKey req) now = true)
    (hd : env.driveConfigured = true) (n : Nat) (did : String)
    (hrs : runStorage req env = (n, .ok did)) :
    uploadInspection m now req env =
      { status := 200
        body := [("success", .jbool true), ("folderId", .jstr did)]
        recentSubmissions := mapSet m (submissionKey req) now
        uploadsAttempted := n
        dbInsertAttempted := env.dbConfigured
        sheetAppendAttempted := env.sheetsConfigured } := by
  simp [uploadInspection, hacc, hd, hrs]

/-- Accepted submission, storage phase fails: fatal HTTP 500, but the
dedupe-map update is kept. -/
theorem uploadInspection_err (m : DedupeMap) (now : Int) (req : UploadRequest)
    (env : DriveEnv) (hacc : dedupePasses m (submissionKey req) now = true)
    (hd : env.driveConfigured = true) (n : Nat) (e : String)
    (hrs : runStorage req env = (n, .error e)) :
    uploadInspection m now req env =
      { status := 500
        body := [("error", .jstr e)]
        recentSubmissions := mapSet m (submissionKey req) now
        uploadsAttempted := n
        dbInsertAttempted := false
        sheetAppendAttempted := false } := by
  simp [uploadInspection, hacc, hd, hrs]

/-- Whatever the environment, an accepted submission records `now` in the
dedupe map. -/
theorem uploadInspection_recent_of_accepted (m : DedupeMap) (now : Int)
    (req : UploadRequest) (env : DriveEnv)
    (hacc : dedupePasses m (submissionKey req) now = true) :
    (uploadInspection m now req env).recentSubmissions =
      mapSet m (submissionKey req) now := by
  unfold uploadInspection
  by_cases hd : env.driveConfigured
  · rcases hr : runStorage req env with ⟨n, r⟩
    cases r <;> simp [hacc, hd, hr]
  · simp [hacc, hd]

/-- A retry within the 10-second window is rejected by the gate. -/
theorem dedupePasses_within_window (m : DedupeMap) (k : String) (t t' : Int)
    (hlt : t' - t < 10000) : dedupePasses (mapSet m k t) k t' = false := by
  have hdec : decide (t' - t < 10000) = true := decide_eq_true hlt
  simp [dedupePasses, mapGet_mapSet_self, hdec]

/-- A retry past the 10-second window passes the gate. -/
theorem dedupePasses_after_window (m : DedupeMap) (k : String) (t t' : Int)
    (hge : 10000 ≤ t' - t) : dedupePasses (mapSet m k t) k t' = true := by
  have : ¬ (t' - t < 10000) := by omega
  simp [dedupePasses, mapGet_mapSet_self, this]

/-! ## Claims about the deduplicator and the upload handler -/

/-- C1: if a submission for a (worker, substation) pair is accepted at time
`t`, a second submission for the same pair at `t'` with `t' - t < 10000` ms
is answered `{success:true, message:"Duplicate request ignored"}` and
performs no storage upload, no relational insert and no spreadsheet append
(and leaves the dedupe map unchanged). -/
theorem duplicate_within_window_ignored (m : DedupeMap) (t t' : Int)
    (req : UploadRequest) (env env' : DriveEnv)
    (hacc : dedupePasses m (submissionKey req) t = true)
    (hlt : t' - t < 10000) :
    uploadInspection (uploadInspection m t req env).recentSubmissions t' req env' =
      { status := 200
        body := [("success", .jbool true), ("message", .jstr "Duplicate request ignored")]
        recentSubmissions := (uploadInspection m t req env).recentSubmissions
        uploadsAttempted := 0
        dbInsertAttempted := false
        sheetAppendAttempted := false } := by
  rw [uploadInspection_recent_of_accepted m t req env hacc]
  exact uploadInspection_dup _ _ _ _ (dedupePasses_within_window m _ t t' hlt)

theorem duplicate_within_window_ignored_witness :
    uploadInspection
        (uploadInspection [] 0 reqW (okEnv "main-id" "daily-id")).recentSubmissions
        5000 reqW (okEnv "main-id" "daily-id") =
      { status := 200
        body := [("success", .jbool true), ("message", .jstr "Duplicate request ignored")]
        recentSubmissions :=
          (uploadInspection [] 0 reqW (okEnv "main-id" "daily-id")).recentSubmissions
        uploadsAttempted := 0
        dbInsertAttempted := false
        sheetAppendAttempted := false } :=
  duplicate_within_window_ignored [] 0 5000 reqW (okEnv "main-id" "daily-id")
    (okEnv "main-id" "daily-id") rfl (by decide)

/-- C7: a submission accepted at `t` and a resubmission for the same pair at
`t + 10001` ms are both accepted: each responds `{success:true, folderId}`
and performs its own uploads and sink writes. -/
theorem resubmit_after_window_accepted (m : DedupeMap) (t : Int)
    (req : UploadRequest) (mainId dailyId : String)
    (hacc : dedupePasses m (submissionKey req) t = true) :
    uploadInspection m t req (okEnv mainId dailyId) =
      { status := 200
        body := [("success", .jbool true), ("folderId", .jstr dailyId)]
        recentSubmissions := mapSet m (submissionKey req) t
        uploadsAttempted := req.photos.length
        dbInsertAttempted := true
        sheetAppendAttempted := true } ∧
    uploadInspection (mapSet m (submissionKey req) t) (t + 10001) req
        (okEnv mainId dailyId) =
      { status := 200
        body := [("success", .jbool true), ("folderId", .jstr dailyId)]
        recentSubmissions :=
          mapSet (mapSet m (submissionKey req) t) (submissionKey req) (t + 10001)
        uploadsAttempted := req.photos.length
        dbInsertAttempted := true
        sheetAppendAttempted := true } := by
  have hd : (okEnv mainId dailyId).driveConfigured = true := rfl
  constructor
  · exact uploadInspection_ok m t req (okEnv mainId dailyId) hacc hd _ _
      (runStorage_okEnv mainId dailyId req)
  · have hacc2 : dedupePasses (mapSet m (submissionKey req) t) (submissionKey req)
        (t + 10001) = true :=
      dedupePasses_after_window m (submissionKey req) t (t + 10001) (by omega)
    exact uploadInspection_ok _ _ req (okEnv mainId dailyId) hacc2 hd _ _
      (runStorage_okEnv mainId dailyId req)

theorem resubmit_after_window_accepted_witness :
    uploadInspection [] 0 reqW (okEnv "main-id" "daily-id") =
      { status := 200
        body := [("success", .jbool true), ("folderId", .jstr "daily-id")]
        recentSubmissions := mapSet [] (submissionKey reqW) 0
        uploadsAttempted := reqW.photos.length
        dbInsertAttempted := true
        sheetAppendAttempted := true } ∧
    uploadInspection (mapSet [] (submissionKey reqW) 0) 10001 reqW
        (okEnv "main-id" "daily-id") =
      { status := 200
        body := [("success", .jbool true), ("folderId", .jstr "daily-id")]
        recentSubmissions :=
          mapSet (mapSet [] (submissionKey reqW) 0) (submissionKey reqW) 10001
        uploadsAttempted := reqW.photos.length
        dbInsertAttempted := true
        sheetAppendAttempted := true } :=
  resubmit_after_window_accepted [] 0 reqW "main-id" "daily-id" rfl

/-- C2: with the Drive service configured, the upload-inspection handler
fails with HTTP 500 `{error}` exactly when the storage phase (folder
resolution or a file upload) fails on an accepted submission; when the
storage phase succeeds, the handler responds `{success:true, folderId}`
with the resolved daily folder id, whatever the outcome of the relational
insert and the spreadsheet append. -/
theorem storage_failure_only_fatality (m : DedupeMap) (t : Int)
    (req : UploadRequest) (env : DriveEnv) (hd : env.driveConfigured = true) :
    ((uploadInspection m t req env).status = 500 ↔
      dedupePasses m (submissionKey req) t = true ∧ storageFailed req env = true) ∧
    (∀ did, dedupePasses m (submissionKey req) t = true →
      (runStorage req env).2 = .ok did →
      (uploadInspection m t req env).status = 200 ∧
      (uploadInspection m t req env).body =
        [("success", .jbool true), ("folderId", .jstr did)]) ∧
    (∀ e, dedupePasses m (submissionKey req) t = true →
      (runStorage req env).2 = .error e →
      (uploadInspection m t req env).status = 500 ∧
      (uploadInspection m t req env).body = [("error", .jstr e)]) := by
  rcases hr : runStorage req env with ⟨n, r⟩
  by_cases hacc : dedupePasses m (submissionKey req) t = true
  · cases r with
    | ok d =>
      have h := uploadInspection_ok m t req env hacc hd n d hr
      refine ⟨?_, ?_, ?_⟩
      · rw [h]; simp [storageFailed, hr]
      · intro did _ hok
        simp only [Except.ok.injEq] at hok
        cases hok
        rw [h]
        exact ⟨rfl, rfl⟩
      · intro e _ herr
        simp at herr
    | error e0 =>
      have h := uploadInspection_err m t req env hacc hd n e0 hr
      refine ⟨?_, ?_, ?_⟩
      · rw [h]; simp [storageFailed, hr, hacc]
      · intro did _ hok
        simp at hok
      · intro e _ herr
        simp only [Except.error.injEq] at herr
        cases herr
        rw [h]
        exact ⟨rfl, rfl⟩
  · have hacc' : dedupePasses m (submissionKey req) t = false := by
      simpa using hacc
    have h := uploadInspection_dup m t req env hacc'
    refine ⟨by rw [h]; simp [hacc'], ?_, ?_⟩
    · intro did hacc2 _
      rw [hacc'] at hacc2
      simp at hacc2
    · intro e hacc2 _
      rw [hacc'] at hacc2
      simp at hacc2

theorem storage_failure_only_fatality_witness :
    (uploadInspection [] 0 reqW sinkFailEnv).status = 200 ∧
    (uploadInspection [] 0 reqW sinkFailEnv).body =
      [("success", .jbool true), ("folderId", .jstr "daily-id")] :=
  (storage_failure_only_fatality [] 0 reqW sinkFailEnv rfl).2.1 "daily-id" rfl rfl

/-- C9: with no database connection string configured, the dashboard-stats
endpoint answers HTTP 200 `{total:0, recent:[]}`, whatever the table, the
filters, or whether the queries would have failed. -/
theorem dashboard_no_db_degrades (qf : Bool) (table : List InspectionLogRow)
    (month year : Option Nat) :
    dashboardStats false qf table month year =
      (200, [("total", .jnum 0), ("recent", .jrows [])]) := rfl

/-- C10: the dedupe timestamp is recorded before the storage phase runs, so
a submission whose storage phase fails (HTTP 500) still leaves its time in
the map, and a retry within 10000 ms is answered with synthetic success and
performs no upload, insert or append at all. -/
theorem dedupe_survives_failed_upload (m : DedupeMap) (t t' : Int)
    (req : UploadRequest) (env env2 : DriveEnv)
    (hacc : dedupePasses m (submissionKey req) t = true)
    (hd : env.driveConfigured = true)
    (hfail : storageFailed req env = true)
    (hlt : t' - t < 10000) :
    (uploadInspection m t req env).status = 500 ∧
    (uploadInspection m t req env).recentSubmissions =
      mapSet m (submissionKey req) t ∧
    uploadInspection (uploadInspection m t req env).recentSubmissions t' req env2 =
      { status := 200
        body := [("success", .jbool true), ("message", .jstr "Duplicate request ignored")]
        recentSubmissions := mapSet m (submissionKey req) t
        uploadsAttempted := 0
        dbInsertAttempted := false
        sheetAppendAttempted := false } := by
  rcases hr : runStorage req env with ⟨n, r⟩
  cases r with
  | ok d =>
    exfalso
    unfold storageFailed at hfail
    rw [hr] at hfail
    simp at hfail
  | error e =>
    have h1 := uploadInspection_err m t req env hacc hd n e hr
    have hrec : (uploadInspection m t req env).recentSubmissions =
        mapSet m (submissionKey req) t := by rw [h1]
    refine ⟨by rw [h1], hrec, ?_⟩
    rw [hrec]
    exact uploadInspection_dup _ _ _ _ (dedupePasses_within_window m _ t t' hlt)

theorem dedupe_survives_failed_upload_witness :
    (uploadInspection [] 0 reqW failUploadEnv).status = 500 ∧
    uploadInspection (uploadInspection [] 0 reqW failUploadEnv).recentSubmissions
        5000 reqW (okEnv "main-id" "daily-id") =
      { status := 200
        body := [("success", .jbool true), ("message", .jstr "Duplicate request ignored")]
        recentSubmissions := mapSet [] (submissionKey reqW) 0
        uploadsAttempted := 0
        dbInsertAttempted := false
        sheetAppendAttempted := false } :=
  have h := dedupe_survives_failed_upload [] 0 5000 reqW failUploadEnv
    (okEnv "main-id" "daily-id") rfl rfl rfl (by decide)
  ⟨h.1, h.2.2⟩

/-! ## Claims about the dashboard query -/

theorem SqlTimestamp.le_trans (a b c : SqlTimestamp) (h1 : a.le b = true)
    (h2 : b.le c = true) : a.le c = true := by
  simp only [SqlTimestamp.le, Bool.or_eq_true, Bool.and_eq_true, Nat.blt_eq,
    Nat.ble_eq, beq_iff_eq] at h1 h2 ⊢
  omega

theorem SqlTimestamp.le_total (a b : SqlTimestamp) : (a.le b || b.le a) = true := by
  simp only [SqlTimestamp.le, Bool.or_eq_true, Bool.and_eq_true, Nat.blt_eq,
    Nat.ble_eq, beq_iff_eq]
  omega

theorem descByTimestamp_trans (a b c : InspectionLogRow)
    (h1 : descByTimestamp a b) (h2 : descByTimestamp b c) : descByTimestamp a c :=
  SqlTimestamp.le_trans c.timestamp b.timestamp a.timestamp h2 h1

theorem descByTimestamp_total (a b : InspectionLogRow) :
    (descByTimestamp a b || descByTimestamp b a) = true :=
  SqlTimestamp.le_total b.timestamp a.timestamp

/-- C3 counterexample: on a concrete two-row table filtered to February
2026, the dashboard response body has exactly the keys `total` and
`recent` — no `totalSubmissions` key carrying the raw submission count
(the handler only runs the distinct-substation count query). -/
theorem dashboard_counterexample_no_totalSubmissions :
    (dashboardStats true false tblFeb (some 2) (some 2026)).2.map Prod.fst =
      ["total", "recent"] ∧
    ¬ ("totalSubmissions" ∈
      (dashboardStats true false tblFeb (some 2) (some 2026)).2.map Prod.fst) := by
  constructor
  · rfl
  · decide

/-- C3 (amended): with both month and year supplied the dashboard answers
`{total, recent}` where `total` is the distinct-substation count over the
rows of that month and year and `recent` is up to 100 rows of that window
ordered by timestamp descending; the raw submission count is not part of
the response (there is no `totalSubmissions` key); with both filters
omitted the same unfiltered latest-100 window is returned. -/
theorem dashboard_month_year_contract (table : List InspectionLogRow) (m y : Nat) :
    dashboardStats true false table (some m) (some y) =
      (200,
        [("total", .jnum
            (((table.filter (matchesFilter m y)).map (·.substation_name)).dedup.length)),
         ("recent", .jrows
            (((table.filter (matchesFilter m y)).mergeSort descByTimestamp).take 100))]) ∧
    (recentRows table (some m) (some y)).all (matchesFilter m y) = true ∧
    (recentRows table (some m) (some y)).length ≤ 100 ∧
    List.Pairwise (fun a b => descByTimestamp a b = true)
      (recentRows table (some m) (some y)) ∧
    dashboardStats true false table none none =
      (200,
        [("total", .jnum ((table.map (·.substation_name)).dedup.length)),
         ("recent", .jrows ((table.mergeSort descByTimestamp).take 100))]) ∧
    (recentRows table none none).length ≤ 100 ∧
    List.Pairwise (fun a b => descByTimestamp a b = true) (recentRows table none none) := by
  refine ⟨rfl, ?_, ?_, ?_, rfl, ?_, ?_⟩
  · rw [List.all_eq_true]
    intro r hr
    have hmem : r ∈ (filteredLogs table (some m) (some y)).mergeSort descByTimestamp :=
      List.mem_of_mem_take hr
    have : r ∈ filteredLogs table (some m) (some y) := List.mem_mergeSort.mp hmem
    exact (List.mem_filter.mp this).2
  · simp [recentRows, List.length_take]
  · exact List.Pairwise.sublist (List.take_sublist _ _)
      (List.sorted_mergeSort descByTimestamp_trans descByTimestamp_total _)
  · simp [recentRows, List.length_take]
  · exact List.Pairwise.sublist (List.take_sublist _ _)
      (List.sorted_mergeSort descByTimestamp_trans descByTimestamp_total _)

/-! ## Haversine distance lemmas -/

theorem calculateDistance_self (lat lon : Real) :
    calculateDistance lat lon lat lon = 0 := by
  have h1 : (⟨1, 0⟩ : Complex) = 1 := by
    apply Complex.ext <;> simp
  simp [calculateDistance, atan2, h1, Complex.arg_one]

theorem calculateDistance_symm (lat1 lon1 lat2 lon2 : Real) :
    calculateDistance lat1 lon1 lat2 lon2 = calculateDistance lat2 lon2 lat1 lon1 := by
  simp only [calculateDistance]
  have h1 : (lat1 - lat2) * Real.pi / 180 / 2 = -((lat2 - lat1) * Real.pi / 180 / 2) := by
    ring
  have h2 : (lon1 - lon2) * Real.pi / 180 / 2 = -((lon2 - lon1) * Real.pi / 180 / 2) := by
    ring
  rw [h1, h2, Real.sin_neg, Real.sin_neg]
  ring_nf

theorem calculateDistance_nonneg (lat1 lon1 lat2 lon2 : Real) :
    0 ≤ calculateDistance lat1 lon1 lat2 lon2 := by
  simp only [calculateDistance, atan2]
  refine mul_nonneg (by norm_num) (mul_nonneg (by norm_num) ?_)
  exact Complex.arg_nonneg_iff.mpr (Real.sqrt_nonneg _)

/-! ## Distance-resolver lemmas -/

theorem rankLe_trans (a b c : RankedSubstation)
    (h1 : decide (a.distance ≤ b.distance) = true)
    (h2 : decide (b.distance ≤ c.distance) = true) :
    decide (a.distance ≤ c.distance) = true := by
  rw [decide_eq_true_eq] at h1 h2 ⊢
  exact le_trans h1 h2

theorem rankLe_total (a b : RankedSubstation) :
    (decide (a.distance ≤ b.distance) || decide (b.distance ≤ a.distance)) = true := by
  rcases le_total a.distance b.distance with h | h <;> simp [h]

theorem sortedSubstationsOf_pairwise (cat : List Substation) (latitude longitude : Real) :
    List.Pairwise (fun a b : RankedSubstation => a.distance ≤ b.distance)
      (sortedSubstationsOf cat latitude longitude) :=
  (List.sorted_mergeSort rankLe_trans rankLe_total
    (withDistanceOf cat latitude longitude)).imp fun h => of_decide_eq_true h

theorem mem_withDistanceOf_nonneg (cat : List Substation) (latitude longitude : Real)
    (x : RankedSubstation) (hx : x ∈ withDistanceOf cat latitude longitude) :
    0 ≤ x.distance := by
  obtain ⟨s', _, rfl⟩ := List.mem_map.mp hx
  exact calculateDistance_nonneg latitude longitude s'.lat s'.lng

theorem sortedSubstationsOf_length (cat : List Substation) (latitude longitude : Real) :
    (sortedSubstationsOf cat latitude longitude).length = cat.length := by
  simp [sortedSubstationsOf, withDistanceOf]

/-- Standing at the exact coordinates of a catalog entry, the sorted list is
nonempty and its first element is at distance exactly 0. -/
theorem head_distance_zero (cat : List Substation) (s : Substation) (hs : s ∈ cat) :
    ∃ s0 rest, sortedSubstationsOf cat s.lat s.lng = s0 :: rest ∧ s0.distance = 0 := by
  have hmem : (⟨s, calculateDistance s.lat s.lng s.lat s.lng⟩ : RankedSubstation) ∈
      withDistanceOf cat s.lat s.lng := List.mem_map_of_mem _ hs
  have hmem2 : (⟨s, calculateDistance s.lat s.lng s.lat s.lng⟩ : RankedSubstation) ∈
      sortedSubstationsOf cat s.lat s.lng := List.mem_mergeSort.mpr hmem
  cases hsort : sortedSubstationsOf cat s.lat s.lng with
  | nil => rw [hsort] at hmem2; cases hmem2
  | cons s0 rest =>
    refine ⟨s0, rest, rfl, ?_⟩
    have hpair := sortedSubstationsOf_pairwise cat s.lat s.lng
    rw [hsort] at hpair hmem2
    have hzero : (⟨s, calculateDistance s.lat s.lng s.lat s.lng⟩ :
        RankedSubstation).distance = 0 := calculateDistance_self s.lat s.lng
    have hle : s0.distance ≤ 0 := by
      rcases List.mem_cons.mp hmem2 with heq | hmem3
      · rw [← heq, hzero]
      · exact hzero ▸ List.rel_of_pairwise_cons hpair hmem3
    have hmem4 : s0 ∈ withDistanceOf cat s.lat s.lng :=
      List.mem_mergeSort.mp (hsort ▸ List.mem_cons_self s0 rest)
    have h0 : 0 ≤ s0.distance := mem_withDistanceOf_nonneg cat s.lat s.lng s0 hmem4
    linarith

/-! ## Claims about the distance resolver -/

/-- C5: for every substation catalog and device coordinate, the resolver's
output sequence is sorted non-decreasing by the computed haversine
distance. -/
theorem resolver_output_sorted (cat : List Substation) (latitude longitude : Real) :
    List.Pairwise (fun a b : RankedSubstation => a.distance ≤ b.distance)
      (sortedSubstationsOf cat latitude longitude) :=
  sortedSubstationsOf_pairwise cat latitude longitude

/-- C8: the haversine distance from a coordinate to itself is 0, and the
distance is symmetric in its two coordinates. -/
theorem haversine_self_and_symm (lat1 lon1 lat2 lon2 : Real) :
    calculateDistance lat1 lon1 lat1 lon1 = 0 ∧
    calculateDistance lat1 lon1 lat2 lon2 = calculateDistance lat2 lon2 lat1 lon1 :=
  ⟨calculateDistance_self lat1 lon1, calculateDistance_symm lat1 lon1 lat2 lon2⟩

/-- C4 counterexample: a device standing exactly at the first catalog
substation's coordinates is at distance 0 ≤ 2 km from it, yet no station is
flagged as detected — `sorted[0].distance` is the falsy number `0`, so the
truthiness guard `sorted[0].distance && sorted[0].distance <= 2` fails. -/
theorem nearest_detected_counterexample :
    nearestSubOf SUBSTATIONS subSamChuk.lat subSamChuk.lng = none ∧
    ((sortedSubstationsOf SUBSTATIONS subSamChuk.lat subSamChuk.lng).head?.map
      fun s => decide (s.distance ≤ 2)) = some true := by
  obtain ⟨s0, rest, hsort, hzero⟩ :=
    head_distance_zero SUBSTATIONS subSamChuk (by simp [SUBSTATIONS])
  constructor
  · simp [nearestSubOf, hsort, hzero]
  · rw [hsort]
    simp [hzero]

/-- C4 (amended): the resolver flags the nearest substation as "detected"
exactly when its computed haversine distance d satisfies 0 < d ≤ 2 km — a
distance of exactly 0 is falsy in JavaScript and is never flagged. -/
theorem nearest_detected_iff (latitude longitude : Real) :
    (nearestSubOf SUBSTATIONS latitude longitude).isSome = true ↔
    (∃ s0, (sortedSubstationsOf SUBSTATIONS latitude longitude).head? = some s0 ∧
      0 < s0.distance ∧ s0.distance ≤ 2) := by
  cases hsort : sortedSubstationsOf SUBSTATIONS latitude longitude with
  | nil =>
    exfalso
    have hlen := sortedSubstationsOf_length SUBSTATIONS latitude longitude
    rw [hsort] at hlen
    simp [SUBSTATIONS] at hlen
  | cons s0 rest =>
    have h0 : 0 ≤ s0.distance := by
      refine mem_withDistanceOf_nonneg SUBSTATIONS latitude longitude s0 ?_
      exact List.mem_mergeSort.mp (hsort ▸ List.mem_cons_self s0 rest)
    simp only [nearestSubOf, hsort, List.head?_cons]
    by_cases hc : s0.distance ≠ 0 ∧ s0.distance ≤ 2
    · rw [if_pos hc]
      simp only [Option.isSome_some, true_iff]
      exact ⟨s0, rfl, lt_of_le_of_ne h0 (Ne.symm hc.1), hc.2⟩
    · rw [if_neg hc]
      simp only [Option.isSome_none, Bool.false_eq_true, false_iff]
      rintro ⟨s0', heq, hpos, hle⟩
      rw [Option.some.injEq] at heq
      subst heq
      exact hc ⟨ne_of_gt hpos, hle⟩

/-- C6: the "nearby" subset equals the set of catalog substations whose
computed distance is within 10 km; when no station is within 10 km it is
instead the 3 closest (the first three of the distance-sorted sequence);
either way it is nonempty. -/
theorem nearby_subset_spec (latitude longitude : Real) :
    displayNearbyOf SUBSTATIONS latitude longitude ≠ [] ∧
    (((withDistanceOf SUBSTATIONS latitude longitude).filter
        (fun s => decide (s.distance ≤ 10)) = [] ∧
      displayNearbyOf SUBSTATIONS latitude longitude =
        (sortedSubstationsOf SUBSTATIONS latitude longitude).take 3) ∨
     (∀ s, s ∈ displayNearbyOf SUBSTATIONS latitude longitude ↔
       s ∈ withDistanceOf SUBSTATIONS latitude longitude ∧ s.distance ≤ 10)) := by
  by_cases h : nearbySubstationsOf SUBSTATIONS latitude longitude = []
  · have hd : displayNearbyOf SUBSTATIONS latitude longitude =
        (sortedSubstationsOf SUBSTATIONS latitude longitude).take 3 := by
      simp [displayNearbyOf, h]
    have hwd : (withDistanceOf SUBSTATIONS latitude longitude).filter
        (fun s => decide (s.distance ≤ 10)) = [] := by
      have hperm : ((sortedSubstationsOf SUBSTATIONS latitude longitude).filter
          (fun s => decide (s.distance ≤ 10))).Perm
          ((withDistanceOf SUBSTATIONS latitude longitude).filter
            (fun s => decide (s.distance ≤ 10))) :=
        (List.mergeSort_perm (withDistanceOf SUBSTATIONS latitude longitude) _).filter _
      rw [show (sortedSubstationsOf SUBSTATIONS latitude longitude).filter
          (fun s => decide (s.distance ≤ 10)) =
          nearbySubstationsOf SUBSTATIONS latitude longitude from rfl, h] at hperm
      exact (List.Perm.symm hperm).eq_nil
    refine ⟨?_, .inl ⟨hwd, hd⟩⟩
    rw [hd]
    intro hnil
    rcases List.take_eq_nil_iff.mp hnil with h3 | hempty
    · exact absurd h3 (by norm_num)
    · have hlen := sortedSubstationsOf_length SUBSTATIONS latitude longitude
      rw [hempty] at hlen
      simp [SUBSTATIONS] at hlen
  · have hd : displayNearbyOf SUBSTATIONS latitude longitude =
        nearbySubstationsOf SUBSTATIONS latitude longitude := by
      have hpos : 0 < (nearbySubstationsOf SUBSTATIONS latitude longitude).length :=
        List.length_pos.mpr h
      simp [displayNearbyOf, hpos]
    refine ⟨by rw [hd]; exact h, .inr ?_⟩
    intro s
    rw [hd]
    simp [nearbySubstationsOf, sortedSubstationsOf, List.mem_filter]
